import Mathlib

/-!
Verification development for `change-timeseries.py`, a pandas pipeline that
loads (or synthesizes) a single-column table of timestamps, converts the
column to datetime, extracts six integer calendar features, and optionally
plots a value-count chart of one feature.

The shallow embedding models a pandas `DataFrame` as a list of named, typed
columns (string, datetime64, or integer dtype), a `datetime64` value as a
structure of calendar fields, and each Python function of the source as a
Lean function returning `Except Err _` where the Python raises exceptions.
Machine dates are handled with civil-calendar arithmetic (days-from-civil /
civil-from-days), matching the proleptic Gregorian calendar that
numpy `datetime64` uses; day-of-week numbering is pandas' `dayofweek`
(Monday = 0), and `quarter` is pandas' `(month - 1) // 3 + 1`.
-/

namespace ChangeTimeseries

/-- Structured date-time value: models one pandas `datetime64[ns]` cell at
second resolution (the program only ever uses whole-second timestamps). -/
structure DateTime where
  year : Nat
  month : Nat
  day : Nat
  hour : Nat
  minute : Nat
  second : Nat
deriving DecidableEq, Repr

/-- Gregorian leap-year test. -/
def isLeapYear (y : Nat) : Bool :=
  (y % 4 == 0 && y % 100 != 0) || y % 400 == 0

/-- Number of days in a month of the Gregorian calendar. -/
def daysInMonth (y m : Nat) : Nat :=
  if m == 2 then (if isLeapYear y then 29 else 28)
  else if m == 4 || m == 6 || m == 9 || m == 11 then 30
  else 31

/-- Representation invariant of a `datetime64` value: numpy can only store
calendar-valid dates, so every datetime cell satisfies this. -/
def DateTime.isValid (d : DateTime) : Bool :=
  decide (1 ≤ d.month ∧ d.month ≤ 12 ∧ 1 ≤ d.day ∧
    d.day ≤ daysInMonth d.year d.month ∧ d.hour < 24 ∧ d.minute < 60 ∧
    d.second < 60)

/-- Days since the Unix epoch (1970-01-01) of a civil date, the standard
days-from-civil computation on the proleptic Gregorian calendar (used by
numpy internally to represent `datetime64`).  Lean's `/` on `Int` is
Euclidean division, which for the positive divisors used here is floor
division. -/
def daysFromCivil (y m d : Int) : Int :=
  let y2 : Int := if m ≤ 2 then y - 1 else y
  let era : Int := y2 / 400
  let yoe : Int := y2 - era * 400
  let mp : Int := if 2 < m then m - 3 else m + 9
  let doy : Int := (153 * mp + 2) / 5 + d - 1
  let doe : Int := yoe * 365 + yoe / 4 - yoe / 100 + doy
  era * 146097 + doe - 719468

/-- Inverse of `daysFromCivil`: the civil date (year, month, day) of a count
of days since the Unix epoch. -/
def civilFromDays (z0 : Int) : Int × Int × Int :=
  let z : Int := z0 + 719468
  let era : Int := z / 146097
  let doe : Int := z - era * 146097
  let yoe : Int := (doe - doe / 1460 + doe / 36524 - doe / 146096) / 365
  let y : Int := yoe + era * 400
  let doy : Int := doe - (365 * yoe + yoe / 4 - yoe / 100)
  let mp : Int := (5 * doy + 2) / 153
  let d : Int := doy - (153 * mp + 2) / 5 + 1
  let m : Int := if mp < 10 then mp + 3 else mp - 9
  (if m ≤ 2 then y + 1 else y, m, d)

/-- Day of week with pandas' `Series.dt.dayofweek` numbering: Monday = 0,
Sunday = 6.  1970-01-01 (epoch day 0) was a Thursday, hence the offset 3. -/
def DateTime.dayofweek (d : DateTime) : Nat :=
  ((daysFromCivil d.year d.month d.day + 3) % 7).toNat

/-- Calendar quarter as computed by pandas' `Series.dt.quarter`:
`(month - 1) // 3 + 1`. -/
def DateTime.quarter (d : DateTime) : Nat :=
  (d.month - 1) / 3 + 1

/-- Column of a `DataFrame` together with its dtype: the program only ever
handles object/string columns, `datetime64` columns, and the integer
feature columns produced by `extract_parts`. -/
inductive Column where
  | strCol (vals : List String)
  | dtCol (vals : List DateTime)
  | intCol (vals : List Int)
deriving DecidableEq, Repr

/-- Number of entries of a column. -/
def Column.length : Column → Nat
  | .strCol vs => vs.length
  | .dtCol vs => vs.length
  | .intCol vs => vs.length

/-- Pandas `DataFrame`: an ordered association list of named columns. -/
structure DataFrame where
  cols : List (String × Column)
deriving DecidableEq, Repr

/-- Column names, in order (pandas `df.columns`). -/
def DataFrame.columns (df : DataFrame) : List String :=
  df.cols.map (fun p => p.1)

/-- Look up a column by name (pandas `df[name]`, first match). -/
def DataFrame.getCol (df : DataFrame) (name : String) : Option Column :=
  (df.cols.find? (fun p => p.1 == name)).map (fun p => p.2)

/-- Replace the column stored under `name`, keeping position and the other
columns (pandas `df[name] = series` on an existing column of a copy). -/
def DataFrame.setCol (df : DataFrame) (name : String) (c : Column) : DataFrame :=
  ⟨df.cols.map (fun p => if p.1 == name then (p.1, c) else p)⟩

/-- Row count (pandas `len(df)`): the length of the columns (0 if none). -/
def DataFrame.nrows (df : DataFrame) : Nat :=
  match df.cols with
  | [] => 0
  | (_, c) :: _ => c.length

/-- Read entry `i` of integer column `name` (used to state per-row facts
about the feature table). -/
def DataFrame.intAt (df : DataFrame) (name : String) (i : Nat) : Option Int :=
  match df.getCol name with
  | some (.intCol vs) => vs[i]?
  | _ => none

/-- Errors of the program, one constructor per raise site of the source.
`pythonClass` below records the Python exception class of each. -/
inductive Err where
  | fileNotFound (path : String)
  | csvReadError
  | shapeError
  | missingColumn (name : String)
  | parseError
  | notDatetime
  | invalidKind (kind : String)
deriving DecidableEq, Repr

/-- Python exception class raised at each error site of the source. -/
def Err.pythonClass : Err → String
  | .fileNotFound _ => "FileNotFoundError"
  | .csvReadError => "ValueError"
  | .shapeError => "ValueError"
  | .missingColumn _ => "KeyError"
  | .parseError => "ValueError"
  | .notDatetime => "TypeError"
  | .invalidKind _ => "KeyError"

/-- Value of a decimal digit character, `none` otherwise. -/
def digit? (c : Char) : Option Nat :=
  if c.isDigit then some (c.toNat - 48) else none

/-- Two decimal digits as a number. -/
def parse2 (a b : Char) : Option Nat := do
  let x ← digit? a
  let y ← digit? b
  pure (10 * x + y)

/-- Four decimal digits as a number. -/
def parse4 (a b c d : Char) : Option Nat := do
  let x ← parse2 a b
  let y ← parse2 c d
  pure (100 * x + y)

/-- Strict parse of a "YYYY-MM-DD HH:MM:SS" string into a date-time value;
models `pd.to_datetime(_, errors="raise")` on the timestamp format this
program works with.  Any malformed string, or a well-formed string denoting
a calendar-invalid date (e.g. month 13), yields `none` — pandas raises in
exactly those cases. -/
def parseDateTime (s : String) : Option DateTime :=
  match s.toList with
  | [y1, y2, y3, y4, '-', mo1, mo2, '-', d1, d2, ' ',
     h1, h2, ':', mi1, mi2, ':', s1, s2] => do
    let y ← parse4 y1 y2 y3 y4
    let mo ← parse2 mo1 mo2
    let d ← parse2 d1 d2
    let h ← parse2 h1 h2
    let mi ← parse2 mi1 mi2
    let se ← parse2 s1 s2
    let dt : DateTime := ⟨y, mo, d, h, mi, se⟩
    if dt.isValid then some dt else none
  | _ => none

/-- Digits of a nonempty decimal numeral as a number, `none` otherwise. -/
def parseNatDigits (cs : List Char) : Option Nat :=
  match cs with
  | [] => none
  | _ => cs.foldl
      (fun acc c => do
        let a ← acc
        let d ← digit? c
        pure (10 * a + d))
      (some 0)

/-- Pandas frequency string of the form "<n>h" (hours), as used by
`pd.date_range(freq=...)` in this program; `none` for anything else. -/
def parseFreqHours (s : String) : Option Nat :=
  let cs := s.toList
  if cs.getLast? == some 'h' then parseNatDigits cs.dropLast else none

/-- Successor day in the Gregorian calendar (rolls over month and year). -/
def DateTime.nextDay (d : DateTime) : DateTime :=
  if d.day < daysInMonth d.year d.month then { d with day := d.day + 1 }
  else if d.month < 12 then { d with day := 1, month := d.month + 1 }
  else { d with day := 1, month := 1, year := d.year + 1 }

/-- Add `n` days. -/
def DateTime.addDays (d : DateTime) : Nat → DateTime
  | 0 => d
  | n + 1 => (d.addDays n).nextDay

/-- Add `n` hours, rolling over into days. -/
def DateTime.addHours (d : DateTime) (n : Nat) : DateTime :=
  let t := d.hour + n
  DateTime.addDays { d with hour := t % 24 } (t / 24)

/-- Model of `pd.date_range(start, periods, freq)` for an hour-valued
frequency: `periods` values starting at `start`, spaced `stepHours` apart. -/
def dateRange (start : DateTime) (periods : Nat) (stepHours : Nat) :
    List DateTime :=
  (List.range periods).map (fun k => start.addHours (k * stepHours))

/-- Nanoseconds of one day. -/
def nsPerDay : Int := 86400000000000

/-- Datetime denoted by a count of nanoseconds since the Unix epoch: models
`pd.to_datetime` applied to an integer (numpy interprets the integer as
epoch nanoseconds).  Restricted to common-era results (`Nat` year). -/
def datetimeOfEpochNs (n : Int) : DateTime :=
  let days := n / nsPerDay
  let secs := (n % nsPerDay) / 1000000000
  let ymd := civilFromDays days
  { year := ymd.1.toNat, month := ymd.2.1.toNat, day := ymd.2.2.toNat,
    hour := (secs / 3600).toNat, minute := (secs / 60 % 60).toNat,
    second := (secs % 60).toNat }

/-- Strict elementwise parse of a string column; `none` as soon as any
entry fails, mirroring `pd.to_datetime(series, errors="raise")`: the whole
conversion aborts, no entry is dropped or coerced to NaT. -/
def parseAll : List String → Option (List DateTime)
  | [] => some []
  | v :: vs =>
    match parseDateTime v with
    | none => none
    | some d =>
      match parseAll vs with
      | none => none
      | some ds => some (d :: ds)

/-- Content found at a path: either a file that `pd.read_csv` cannot decode,
or the table it decodes to.  A filesystem is a partial map from paths. -/
inductive FileContent where
  | undecodable
  | table (df : DataFrame)
deriving DecidableEq, Repr

/-- Model of `load_dataframe_from_file` (source lines 6-34): checks existence
(`FileNotFoundError`), decodes the CSV (`ValueError` on failure), requires
exactly one column (`ValueError` otherwise), renames it to "timestamp". -/
def load_dataframe_from_file (fs : String → Option FileContent)
    (path : String) : Except Err DataFrame :=
  match fs path with
  | none => .error (.fileNotFound path)
  | some .undecodable => .error .csvReadError
  | some (.table df) =>
    match df.cols with
    | [(_, c)] => .ok ⟨[("timestamp", c)]⟩
    | _ => .error .shapeError

/-- Model of `create_periodic_dataframe` (source lines 37-66): builds a
one-column "timestamp" frame of `periods` datetimes via `pd.date_range`.
Any internal failure (unparseable start or frequency) is caught: a
diagnostic line is printed (second component) and no frame is returned
(`none`, Python's implicit `None`) instead of propagating the error. -/
def create_periodic_dataframe (start_timedate_point : String) (periods : Nat)
    (freq : String) : Option DataFrame × List String :=
  match parseDateTime start_timedate_point, parseFreqHours freq with
  | some st, some h =>
    (some ⟨[("timestamp", .dtCol (dateRange st periods h))]⟩, [])
  | _, _ =>
    (none, ["Ошибка при создании строковых временных меток"])

/-- Model of `convert_to_datetime` (source lines 69-95): requires a
"timestamp" column (`KeyError` otherwise), then re-parses it strictly on a
copy (`ValueError` if any entry fails).  A column already of datetime dtype
passes through unchanged, and an integer column is interpreted as epoch
nanoseconds — both as `pd.to_datetime` does. -/
def convert_to_datetime (df : DataFrame) : Except Err DataFrame :=
  match df.getCol "timestamp" with
  | none => .error (.missingColumn "timestamp")
  | some (.dtCol vs) => .ok (df.setCol "timestamp" (.dtCol vs))
  | some (.intCol vs) =>
    .ok (df.setCol "timestamp" (.dtCol (vs.map datetimeOfEpochNs)))
  | some (.strCol vs) =>
    match parseAll vs with
    | some ds => .ok (df.setCol "timestamp" (.dtCol ds))
    | none => .error .parseError

/-- Feature frame built by `extract_parts` (source lines 126-139) from the
datetime column: six integer columns, one entry per timestamp, in the
insertion order of the source. -/
def featureFrame (vs : List DateTime) : DataFrame :=
  ⟨[
    ("day", .intCol (vs.map (fun d => (d.day : Int)))),
    ("month", .intCol (vs.map (fun d => (d.month : Int)))),
    ("year", .intCol (vs.map (fun d => (d.year : Int)))),
    ("hour", .intCol (vs.map (fun d => (d.hour : Int)))),
    ("weekday", .intCol (vs.map (fun d => (d.dayofweek : Int)))),
    ("quarter", .intCol (vs.map (fun d => (d.quarter : Int))))]⟩

/-- Model of `extract_parts` (source lines 98-139): requires a "timestamp"
column (`KeyError` otherwise) of datetime dtype (`TypeError` otherwise),
then builds a fresh frame of six integer feature columns derived per-row
from the timestamps; the timestamp column itself is not carried through. -/
def extract_parts (df : DataFrame) : Except Err DataFrame :=
  match df.getCol "timestamp" with
  | none => .error (.missingColumn "timestamp")
  | some (.dtCol vs) => .ok (featureFrame vs)
  | some _ => .error .notDatetime

/-- Chart kinds accepted by `display` (source line 155), exactly the
eleven-element list of the source. -/
def validKinds : List String :=
  ["line", "bar", "barh", "kde", "density", "area", "hist", "box", "pie",
   "scatter", "hexbin"]

/-- Model of `display` (source lines 141-158): the requested category must
be a column (`KeyError` otherwise, checked first), the kind must be in
`validKinds` (`KeyError` with a distinct message otherwise); on success the
value-count plot is rendered (a side effect, modeled as `ok ()`). -/
def display (df : DataFrame) (category : String) (kind : String) :
    Except Err Unit :=
  if category ∈ df.columns then
    if kind ∈ validKinds then .ok ()
    else .error (.invalidKind kind)
  else .error (.missingColumn category)

/-- Model of `example_main_synthetic` (source lines 160-171): the synthetic
pipeline with the fixed parameters of the source.  `none` would mean the
generator swallowed a failure and handed `None` downstream. -/
def example_main_synthetic : Option (Except Err DataFrame) :=
  match (create_periodic_dataframe "2025-09-16 02:35:00" 15 "14h").1 with
  | none => none
  | some df =>
    some (match convert_to_datetime df with
      | .error e => .error e
      | .ok tdf => extract_parts tdf)

/-- Row count of the frame produced by a pipeline run, when it produced one. -/
def pipelineNrows (r : Option (Except Err DataFrame)) : Option Nat :=
  match r with
  | some (.ok df) => some df.nrows
  | _ => none

/-- Entry `i` of integer column `name` of the frame produced by a pipeline
run, when it produced one. -/
def pipelineIntAt (r : Option (Except Err DataFrame)) (name : String)
    (i : Nat) : Option Int :=
  match r with
  | some (.ok df) => df.intAt name i
  | _ => none

/-! ### Sample data for witnesses -/

/-- Concrete timestamp 2025-09-16 02:35:00 (a Tuesday). -/
def sampleDt : DateTime := ⟨2025, 9, 16, 2, 35, 0⟩

/-- Concrete one-row frame with a datetime-typed "timestamp" column. -/
def sampleDf : DataFrame := ⟨[("timestamp", Column.dtCol [sampleDt])]⟩

/-- Concrete frame with no "timestamp" column. -/
def noTsDf : DataFrame := ⟨[("x", Column.strCol ["a"])]⟩

/-- Concrete frame whose "timestamp" column is still string-typed and holds
an unparseable entry. -/
def badParseDf : DataFrame := ⟨[("timestamp", Column.strCol ["not-a-date"])]⟩

/-! ### Helper lemmas -/

lemma mem_of_getElem?_eq_some {α : Type} {l : List α} {n : Nat} {a : α}
    (h : l[n]? = some a) : a ∈ l := by
  rw [List.getElem?_eq_some] at h
  obtain ⟨hlt, rfl⟩ := h
  exact List.getElem_mem hlt

lemma getCol_eq_none_of_not_mem (df : DataFrame) (name : String)
    (h : name ∉ df.columns) : df.getCol name = none := by
  unfold DataFrame.getCol
  have hfind : df.cols.find? (fun p => p.1 == name) = none := by
    rw [List.find?_eq_none]
    intro p hp hbeq
    apply h
    simp only [DataFrame.columns, List.mem_map]
    exact ⟨p, hp, by simpa using hbeq⟩
  rw [hfind]
  rfl

lemma extract_parts_eq_ok (df : DataFrame) (vs : List DateTime)
    (hcol : df.getCol "timestamp" = some (.dtCol vs)) :
    extract_parts df = .ok (featureFrame vs) := by
  unfold extract_parts
  rw [hcol]

lemma featureFrame_intAt_day (vs : List DateTime) (i : Nat) :
    (featureFrame vs).intAt "day" i = (vs[i]?).map (fun d => (d.day : Int)) := by
  show (vs.map (fun d => (d.day : Int)))[i]? = _
  exact List.getElem?_map ..

lemma featureFrame_intAt_month (vs : List DateTime) (i : Nat) :
    (featureFrame vs).intAt "month" i
      = (vs[i]?).map (fun d => (d.month : Int)) := by
  show (vs.map (fun d => (d.month : Int)))[i]? = _
  exact List.getElem?_map ..

lemma featureFrame_intAt_year (vs : List DateTime) (i : Nat) :
    (featureFrame vs).intAt "year" i
      = (vs[i]?).map (fun d => (d.year : Int)) := by
  show (vs.map (fun d => (d.year : Int)))[i]? = _
  exact List.getElem?_map ..

lemma featureFrame_intAt_hour (vs : List DateTime) (i : Nat) :
    (featureFrame vs).intAt "hour" i
      = (vs[i]?).map (fun d => (d.hour : Int)) := by
  show (vs.map (fun d => (d.hour : Int)))[i]? = _
  exact List.getElem?_map ..

lemma featureFrame_intAt_weekday (vs : List DateTime) (i : Nat) :
    (featureFrame vs).intAt "weekday" i
      = (vs[i]?).map (fun d => (d.dayofweek : Int)) := by
  show (vs.map (fun d => (d.dayofweek : Int)))[i]? = _
  exact List.getElem?_map ..

lemma featureFrame_intAt_quarter (vs : List DateTime) (i : Nat) :
    (featureFrame vs).intAt "quarter" i
      = (vs[i]?).map (fun d => (d.quarter : Int)) := by
  show (vs.map (fun d => (d.quarter : Int)))[i]? = _
  exact List.getElem?_map ..

lemma dayofweek_lt_7 (d : DateTime) : d.dayofweek < 7 := by
  unfold DateTime.dayofweek
  have h1 := Int.emod_nonneg (daysFromCivil d.year d.month d.day + 3)
    (by norm_num : (7 : Int) ≠ 0)
  have h2 := Int.emod_lt_of_pos (daysFromCivil d.year d.month d.day + 3)
    (by norm_num : (0 : Int) < 7)
  omega

/-! ### Claims -/

/-- C1: for every table whose "timestamp" column is datetime-typed (hence
holds calendar-valid values), each output row of `extract_parts` satisfies
`quarter = ((month - 1) // 3) + 1` where `month` is that row's month
field.  Lean's `/` on `Int` is Euclidean division, which agrees with
Python's floor division `//` here since the divisor is positive. -/
theorem c1_quarter_of_month (df : DataFrame) (vs : List DateTime)
    (hcol : df.getCol "timestamp" = some (.dtCol vs))
    (hvalid : ∀ d ∈ vs, d.isValid = true)
    (out : DataFrame) (hout : extract_parts df = .ok out)
    (i : Nat) (q m : Int)
    (hq : out.intAt "quarter" i = some q)
    (hm : out.intAt "month" i = some m) :
    q = (m - 1) / 3 + 1 := by
  rw [extract_parts_eq_ok df vs hcol] at hout
  injection hout with hout
  subst hout
  rw [featureFrame_intAt_quarter] at hq
  rw [featureFrame_intAt_month] at hm
  obtain ⟨d, hd, hq2⟩ := Option.map_eq_some'.mp hq
  obtain ⟨d2, hd2, hm2⟩ := Option.map_eq_some'.mp hm
  rw [hd] at hd2
  injection hd2 with hd2
  subst hd2
  have hdmem : d ∈ vs := mem_of_getElem?_eq_some hd
  have hv := hvalid d hdmem
  simp only [DateTime.isValid, decide_eq_true_eq] at hv
  obtain ⟨hm1, hm12, _⟩ := hv
  have hq3 : (d.quarter : Int) = q := hq2
  have hm3 : (d.month : Int) = m := hm2
  have hquot : d.quarter = (d.month - 1) / 3 + 1 := rfl
  omega

/-- Witness for C1: the concrete one-row table for 2025-09-16 02:35:00,
where month = 9 and quarter = 3 = ((9 - 1) // 3) + 1. -/
theorem c1_quarter_of_month_witness :
    (∀ d ∈ [sampleDt], d.isValid = true) ∧ (3 : Int) = (9 - 1) / 3 + 1 :=
  ⟨by decide, c1_quarter_of_month sampleDf [sampleDt] (by decide) (by decide)
    (featureFrame [sampleDt]) rfl 0 3 9 (by decide) (by decide)⟩

/-- C2: for every table whose "timestamp" column is datetime-typed, each
output row of `extract_parts` has weekday in [0,6] (Monday = 0), quarter in
[1,4], hour in [0,23] and month in [1,12]. -/
theorem c2_feature_ranges (df : DataFrame) (vs : List DateTime)
    (hcol : df.getCol "timestamp" = some (.dtCol vs))
    (hvalid : ∀ d ∈ vs, d.isValid = true)
    (out : DataFrame) (hout : extract_parts df = .ok out)
    (i : Nat) (w q h m : Int)
    (hw : out.intAt "weekday" i = some w)
    (hq : out.intAt "quarter" i = some q)
    (hh : out.intAt "hour" i = some h)
    (hm : out.intAt "month" i = some m) :
    (0 ≤ w ∧ w ≤ 6) ∧ (1 ≤ q ∧ q ≤ 4) ∧ (0 ≤ h ∧ h ≤ 23) ∧
      (1 ≤ m ∧ m ≤ 12) := by
  rw [extract_parts_eq_ok df vs hcol] at hout
  injection hout with hout
  subst hout
  rw [featureFrame_intAt_weekday] at hw
  rw [featureFrame_intAt_quarter] at hq
  rw [featureFrame_intAt_hour] at hh
  rw [featureFrame_intAt_month] at hm
  obtain ⟨d, hd, hw2⟩ := Option.map_eq_some'.mp hw
  obtain ⟨d2, hd2, hq2⟩ := Option.map_eq_some'.mp hq
  obtain ⟨d3, hd3, hh2⟩ := Option.map_eq_some'.mp hh
  obtain ⟨d4, hd4, hm2⟩ := Option.map_eq_some'.mp hm
  rw [hd] at hd2 hd3 hd4
  injection hd2 with hd2
  injection hd3 with hd3
  injection hd4 with hd4
  subst hd2
  subst hd3
  subst hd4
  have hdmem : d ∈ vs := mem_of_getElem?_eq_some hd
  have hv := hvalid d hdmem
  simp only [DateTime.isValid, decide_eq_true_eq] at hv
  obtain ⟨hm1, hm12, _, _, hh24, _, _⟩ := hv
  have hw3 : (d.dayofweek : Int) = w := hw2
  have hq3 : (d.quarter : Int) = q := hq2
  have hh3 : (d.hour : Int) = h := hh2
  have hm3 : (d.month : Int) = m := hm2
  have hwlt := dayofweek_lt_7 d
  have hquot : d.quarter = (d.month - 1) / 3 + 1 := rfl
  omega

/-- Witness for C2: the concrete one-row table, whose feature row has
weekday 1, quarter 3, hour 2 and month 9, each within range. -/
theorem c2_feature_ranges_witness :
    (∀ d ∈ [sampleDt], d.isValid = true) ∧
    ((0 ≤ (1 : Int) ∧ (1 : Int) ≤ 6) ∧ (1 ≤ (3 : Int) ∧ (3 : Int) ≤ 4) ∧
      (0 ≤ (2 : Int) ∧ (2 : Int) ≤ 23) ∧ (1 ≤ (9 : Int) ∧ (9 : Int) ≤ 12)) :=
  ⟨by decide, c2_feature_ranges sampleDf [sampleDt] (by decide) (by decide)
    (featureFrame [sampleDt]) rfl 0 1 3 2 9
    (by decide) (by decide) (by decide) (by decide)⟩

/-- C3: for every table whose "timestamp" column is datetime-typed (with all
columns of equal length, as in any pandas frame), `extract_parts` returns a
table with exactly the six feature columns day, month, year, hour, weekday,
quarter in that order, the same row count as the input, the "timestamp"
column dropped, and row `i` of every feature column derived from input
timestamp `i` (order preserved). -/
theorem c3_output_shape (df : DataFrame) (vs : List DateTime)
    (hcol : df.getCol "timestamp" = some (.dtCol vs))
    (hwf : ∀ p ∈ df.cols, (p.2).length = df.nrows)
    (out : DataFrame) (hout : extract_parts df = .ok out) :
    out.columns = ["day", "month", "year", "hour", "weekday", "quarter"] ∧
    out.nrows = df.nrows ∧
    (∀ p ∈ out.cols, (p.2).length = df.nrows) ∧
    "timestamp" ∉ out.columns ∧
    (∀ i, out.intAt "day" i = (vs[i]?).map (fun d => (d.day : Int))) ∧
    (∀ i, out.intAt "month" i = (vs[i]?).map (fun d => (d.month : Int))) ∧
    (∀ i, out.intAt "year" i = (vs[i]?).map (fun d => (d.year : Int))) ∧
    (∀ i, out.intAt "hour" i = (vs[i]?).map (fun d => (d.hour : Int))) ∧
    (∀ i, out.intAt "weekday" i
      = (vs[i]?).map (fun d => (d.dayofweek : Int))) ∧
    (∀ i, out.intAt "quarter" i
      = (vs[i]?).map (fun d => (d.quarter : Int))) := by
  rw [extract_parts_eq_ok df vs hcol] at hout
  injection hout with hout
  subst hout
  have hlen : vs.length = df.nrows := by
    unfold DataFrame.getCol at hcol
    cases hfind : df.cols.find? (fun p => p.1 == "timestamp") with
    | none => rw [hfind] at hcol; simp at hcol
    | some p =>
      rw [hfind] at hcol
      simp only [Option.map_some', Option.some.injEq] at hcol
      have hpmem := List.mem_of_find?_eq_some hfind
      have := hwf p hpmem
      rw [hcol] at this
      simpa [Column.length] using this
  refine ⟨rfl, ?_, ?_, by simp [featureFrame, DataFrame.columns],
    featureFrame_intAt_day vs,
    featureFrame_intAt_month vs, featureFrame_intAt_year vs,
    featureFrame_intAt_hour vs, featureFrame_intAt_weekday vs,
    featureFrame_intAt_quarter vs⟩
  · simp only [featureFrame, DataFrame.nrows, Column.length, List.length_map]
    exact hlen
  · intro p hp
    simp only [featureFrame, List.mem_cons, List.not_mem_nil, or_false] at hp
    rcases hp with rfl | rfl | rfl | rfl | rfl | rfl <;>
      simpa [Column.length] using hlen

/-- Witness for C3: the concrete one-row table; its feature table has the
six columns, one row, and no "timestamp" column. -/
theorem c3_output_shape_witness :
    (∀ p ∈ sampleDf.cols, (p.2).length = sampleDf.nrows) ∧
    (featureFrame [sampleDt]).columns
      = ["day", "month", "year", "hour", "weekday", "quarter"] ∧
    (featureFrame [sampleDt]).nrows = sampleDf.nrows ∧
    "timestamp" ∉ (featureFrame [sampleDt]).columns := by
  have h := c3_output_shape sampleDf [sampleDt] (by decide) (by decide)
    (featureFrame [sampleDt]) rfl
  exact ⟨by decide, h.1, h.2.1, h.2.2.2.1⟩

/-- C4: the end-to-end synthetic scenario of `example_main_synthetic`
(start 2025-09-16 02:35:00, 15 periods, 14-hour step, then
`convert_to_datetime` and `extract_parts`) produces exactly 15 rows; the
first row has day 16, month 9, year 2025, hour 2, weekday 1 (Tuesday) and
quarter 3, and the second row has hour 16 with the same day, weekday and
quarter as the first. -/
theorem c4_synthetic_scenario :
    pipelineNrows example_main_synthetic = some 15 ∧
    pipelineIntAt example_main_synthetic "day" 0 = some 16 ∧
    pipelineIntAt example_main_synthetic "month" 0 = some 9 ∧
    pipelineIntAt example_main_synthetic "year" 0 = some 2025 ∧
    pipelineIntAt example_main_synthetic "hour" 0 = some 2 ∧
    pipelineIntAt example_main_synthetic "weekday" 0 = some 1 ∧
    pipelineIntAt example_main_synthetic "quarter" 0 = some 3 ∧
    pipelineIntAt example_main_synthetic "hour" 1 = some 16 ∧
    pipelineIntAt example_main_synthetic "day" 1
      = pipelineIntAt example_main_synthetic "day" 0 ∧
    pipelineIntAt example_main_synthetic "weekday" 1
      = pipelineIntAt example_main_synthetic "weekday" 0 ∧
    pipelineIntAt example_main_synthetic "quarter" 1
      = pipelineIntAt example_main_synthetic "quarter" 0 := by
  decide

/-! ### Lemmas about strict elementwise parsing -/

lemma parseAll_eq_none_of_bad (vs : List String) (v : String) (hv : v ∈ vs)
    (hbad : parseDateTime v = none) : parseAll vs = none := by
  induction vs with
  | nil => cases hv
  | cons a as ih =>
    rcases List.mem_cons.mp hv with rfl | hmem
    · simp [parseAll, hbad]
    · cases hp : parseDateTime a <;> simp [parseAll, hp, ih hmem]

lemma parseAll_length (vs : List String) (ds : List DateTime)
    (h : parseAll vs = some ds) : ds.length = vs.length := by
  induction vs generalizing ds with
  | nil =>
    simp only [parseAll, Option.some.injEq] at h
    subst h
    rfl
  | cons a as ih =>
    cases hp : parseDateTime a with
    | none => simp [parseAll, hp] at h
    | some d =>
      cases hall : parseAll as with
      | none => simp [parseAll, hp, hall] at h
      | some ds2 =>
        simp only [parseAll, hp, hall, Option.some.injEq] at h
        subst h
        simp [ih ds2 hall]

lemma parseAll_getElem? (vs : List String) (ds : List DateTime)
    (h : parseAll vs = some ds) (i : Nat) :
    ds[i]? = (vs[i]?).bind parseDateTime := by
  induction vs generalizing ds i with
  | nil =>
    simp only [parseAll, Option.some.injEq] at h
    subst h
    simp
  | cons a as ih =>
    cases hp : parseDateTime a with
    | none => simp [parseAll, hp] at h
    | some d =>
      cases hall : parseAll as with
      | none => simp [parseAll, hp, hall] at h
      | some ds2 =>
        simp only [parseAll, hp, hall, Option.some.injEq] at h
        subst h
        cases i with
        | zero => simp [hp]
        | succ n => simpa using ih ds2 hall n

/-- Concrete frame whose "timestamp" column is string-typed with one
parseable entry. -/
def sampleStrDf : DataFrame :=
  ⟨[("timestamp", Column.strCol ["2025-09-16 02:35:00"])]⟩

/-- Concrete filesystem for the loader witnesses: a one-column CSV, a
two-column CSV, and an undecodable file. -/
def sampleFs : String → Option FileContent := fun p =>
  if p == "one.csv" then
    some (.table ⟨[("v", Column.strCol ["2025-09-16 02:35:00"])]⟩)
  else if p == "two.csv" then
    some (.table ⟨[("a", Column.strCol ["x"]), ("b", Column.strCol ["y"])]⟩)
  else if p == "bad.csv" then some .undecodable
  else none

/-- C5: `convert_to_datetime` fails with the missing-column error when the
input has no "timestamp" column; otherwise it parses the string column
strictly: if any entry is unparseable the whole conversion fails with the
parse error, and on success every row is parsed (same length, pointwise),
none dropped or replaced by a sentinel. -/
theorem c5_convert_to_datetime_strict (df : DataFrame) :
    ("timestamp" ∉ df.columns →
      convert_to_datetime df = .error (.missingColumn "timestamp")) ∧
    (∀ vs, df.getCol "timestamp" = some (.strCol vs) →
      ((∃ v ∈ vs, parseDateTime v = none) →
        convert_to_datetime df = .error .parseError) ∧
      (∀ ds, parseAll vs = some ds →
        convert_to_datetime df = .ok (df.setCol "timestamp" (.dtCol ds)) ∧
        ds.length = vs.length ∧
        (∀ i : Nat, ds[i]? = (vs[i]?).bind parseDateTime))) := by
  constructor
  · intro hns
    unfold convert_to_datetime
    rw [getCol_eq_none_of_not_mem df "timestamp" hns]
  · intro vs hcol
    constructor
    · rintro ⟨v, hv, hbad⟩
      unfold convert_to_datetime
      rw [hcol]
      dsimp only
      rw [parseAll_eq_none_of_bad vs v hv hbad]
    · intro ds hds
      refine ⟨?_, parseAll_length vs ds hds, parseAll_getElem? vs ds hds⟩
      unfold convert_to_datetime
      rw [hcol]
      dsimp only
      rw [hds]

/-- Witness for C5: a frame without the column, a frame with an unparseable
entry, and a fully parseable frame. -/
theorem c5_convert_to_datetime_strict_witness :
    convert_to_datetime noTsDf = .error (.missingColumn "timestamp") ∧
    convert_to_datetime badParseDf = .error .parseError ∧
    convert_to_datetime sampleStrDf
      = .ok (sampleStrDf.setCol "timestamp" (.dtCol [sampleDt])) :=
  ⟨(c5_convert_to_datetime_strict noTsDf).1 (by decide),
   ((c5_convert_to_datetime_strict badParseDf).2 ["not-a-date"] rfl).1
     ⟨"not-a-date", by decide, by decide⟩,
   (((c5_convert_to_datetime_strict sampleStrDf).2
     ["2025-09-16 02:35:00"] rfl).2 [sampleDt] (by decide)).1⟩

/-- C6: `extract_parts` fails with the missing-column error when there is no
"timestamp" column, fails with the type error when the column is present
but not datetime-typed (string or integer dtype), and succeeds on every
datetime-typed column. -/
theorem c6_extract_parts_errors (df : DataFrame) :
    ("timestamp" ∉ df.columns →
      extract_parts df = .error (.missingColumn "timestamp")) ∧
    (∀ vs, df.getCol "timestamp" = some (.strCol vs) →
      extract_parts df = .error .notDatetime) ∧
    (∀ vs, df.getCol "timestamp" = some (.intCol vs) →
      extract_parts df = .error .notDatetime) ∧
    (∀ vs, df.getCol "timestamp" = some (.dtCol vs) →
      extract_parts df = .ok (featureFrame vs)) := by
  refine ⟨?_, ?_, ?_, fun vs h => extract_parts_eq_ok df vs h⟩
  · intro hns
    unfold extract_parts
    rw [getCol_eq_none_of_not_mem df "timestamp" hns]
  · intro vs h
    unfold extract_parts
    rw [h]
  · intro vs h
    unfold extract_parts
    rw [h]

/-- Witness for C6: a frame without the column, a string-typed frame, and a
datetime-typed frame. -/
theorem c6_extract_parts_errors_witness :
    extract_parts noTsDf = .error (.missingColumn "timestamp") ∧
    extract_parts badParseDf = .error .notDatetime ∧
    extract_parts sampleDf = .ok (featureFrame [sampleDt]) :=
  ⟨(c6_extract_parts_errors noTsDf).1 (by decide),
   (c6_extract_parts_errors badParseDf).2.1 ["not-a-date"] rfl,
   (c6_extract_parts_errors sampleDf).2.2.2 [sampleDt] rfl⟩

/-- C7: `display` fails with the missing-column error when the category is
not a column, fails with the (distinct) invalid-kind error when the kind is
outside the fixed eleven-element kind list, and raises neither error for a
category that is a column and a kind in the list. -/
theorem c7_display_errors (df : DataFrame) (category kind : String) :
    (category ∉ df.columns →
      display df category kind = .error (.missingColumn category)) ∧
    (category ∈ df.columns → kind ∉ validKinds →
      display df category kind = .error (.invalidKind kind)) ∧
    (category ∈ df.columns → kind ∈ validKinds →
      display df category kind = .ok ()) ∧
    Err.invalidKind kind ≠ Err.missingColumn category := by
  refine ⟨?_, ?_, ?_, by simp⟩
  · intro h
    simp [display, h]
  · intro h1 h2
    simp [display, h1, h2]
  · intro h1 h2
    simp [display, h1, h2]

/-- Witness for C7: the feature table of the sample row, with a nonexistent
category, an invalid kind "triangle", and the valid call used by the
program ("weekday", "pie"). -/
theorem c7_display_errors_witness :
    display (featureFrame [sampleDt]) "nonexistent" "pie"
      = .error (.missingColumn "nonexistent") ∧
    display (featureFrame [sampleDt]) "weekday" "triangle"
      = .error (.invalidKind "triangle") ∧
    display (featureFrame [sampleDt]) "weekday" "pie" = .ok () :=
  ⟨(c7_display_errors (featureFrame [sampleDt]) "nonexistent" "pie").1
     (by decide),
   (c7_display_errors (featureFrame [sampleDt]) "weekday" "triangle").2.1
     (by decide) (by decide),
   (c7_display_errors (featureFrame [sampleDt]) "weekday" "pie").2.2.1
     (by decide) (by decide)⟩

/-- C8: `load_dataframe_from_file` fails with the not-found error when the
path does not exist, with the CSV read error when the file cannot be
decoded, with the shape error when the decoded table does not have exactly
one column, and on success returns the table with its single column renamed
to "timestamp". -/
theorem c8_load_dataframe_from_file_spec (fs : String → Option FileContent)
    (path : String) :
    (fs path = none →
      load_dataframe_from_file fs path = .error (.fileNotFound path)) ∧
    (fs path = some .undecodable →
      load_dataframe_from_file fs path = .error .csvReadError) ∧
    (∀ df, fs path = some (.table df) → df.cols.length ≠ 1 →
      load_dataframe_from_file fs path = .error .shapeError) ∧
    (∀ name c, fs path = some (.table ⟨[(name, c)]⟩) →
      load_dataframe_from_file fs path = .ok ⟨[("timestamp", c)]⟩) := by
  refine ⟨?_, ?_, ?_, ?_⟩
  · intro h
    unfold load_dataframe_from_file
    rw [h]
  · intro h
    unfold load_dataframe_from_file
    rw [h]
  · intro df h hne
    obtain ⟨cols⟩ := df
    unfold load_dataframe_from_file
    rw [h]
    rcases cols with _ | ⟨⟨a, c⟩, _ | ⟨p2, t⟩⟩
    · rfl
    · exact absurd rfl hne
    · rfl
  · intro name c h
    unfold load_dataframe_from_file
    rw [h]

/-- Witness for C8: a concrete filesystem with a missing path, an
undecodable file, a two-column CSV and a one-column CSV. -/
theorem c8_load_dataframe_from_file_spec_witness :
    load_dataframe_from_file sampleFs "missing.csv"
      = .error (.fileNotFound "missing.csv") ∧
    load_dataframe_from_file sampleFs "bad.csv" = .error .csvReadError ∧
    load_dataframe_from_file sampleFs "two.csv" = .error .shapeError ∧
    load_dataframe_from_file sampleFs "one.csv"
      = .ok ⟨[("timestamp", Column.strCol ["2025-09-16 02:35:00"])]⟩ :=
  ⟨(c8_load_dataframe_from_file_spec sampleFs "missing.csv").1 rfl,
   (c8_load_dataframe_from_file_spec sampleFs "bad.csv").2.1 rfl,
   (c8_load_dataframe_from_file_spec sampleFs "two.csv").2.2.1
     ⟨[("a", Column.strCol ["x"]), ("b", Column.strCol ["y"])]⟩ rfl
     (by decide),
   (c8_load_dataframe_from_file_spec sampleFs "one.csv").2.2.2 "v"
     (Column.strCol ["2025-09-16 02:35:00"]) rfl⟩

/-- C9: on any internal failure of the synthetic generator (unparseable
start point or frequency), `create_periodic_dataframe` does not propagate
the error: it prints a diagnostic line and returns no usable frame. -/
theorem c9_synthetic_failure_swallowed (start_timedate_point : String)
    (periods : Nat) (freq : String)
    (hfail : parseDateTime start_timedate_point = none ∨
      parseFreqHours freq = none) :
    (create_periodic_dataframe start_timedate_point periods freq).1 = none ∧
    (create_periodic_dataframe start_timedate_point periods freq).2 ≠ [] := by
  cases hp : parseDateTime start_timedate_point with
  | none =>
    cases hf : parseFreqHours freq <;>
      simp [create_periodic_dataframe, hp, hf]
  | some st =>
    cases hf : parseFreqHours freq with
    | none => simp [create_periodic_dataframe, hp, hf]
    | some h2 =>
      rcases hfail with hbad | hbad
      · rw [hp] at hbad
        exact Option.noConfusion hbad
      · rw [hf] at hbad
        exact Option.noConfusion hbad

/-- Witness for C9: the generator called with an unparseable start point
swallows the failure. -/
theorem c9_synthetic_failure_swallowed_witness :
    (create_periodic_dataframe "not-a-date" 15 "14h").1 = none ∧
    (create_periodic_dataframe "not-a-date" 15 "14h").2 ≠ [] :=
  c9_synthetic_failure_swallowed "not-a-date" 15 "14h" (Or.inl (by decide))

/-- C10: both in `extract_parts` and in `display`, the presence of the
required or requested column is checked before any other validation: a
frame lacking "timestamp" always yields the missing-column error from
`extract_parts` (never the type error), and a `display` call whose category
is not a column yields the missing-column error for every kind, valid or
not. -/
theorem c10_missing_column_first (df : DataFrame) (category kind : String) :
    ("timestamp" ∉ df.columns →
      extract_parts df = .error (.missingColumn "timestamp")) ∧
    (category ∉ df.columns →
      display df category kind = .error (.missingColumn category)) := by
  constructor
  · intro h
    unfold extract_parts
    rw [getCol_eq_none_of_not_mem df "timestamp" h]
  · intro h
    simp [display, h]

/-- Witness for C10: a frame without "timestamp" and a display call whose
category is absent while the kind "triangle" is also invalid. -/
theorem c10_missing_column_first_witness :
    extract_parts noTsDf = .error (.missingColumn "timestamp") ∧
    display noTsDf "nonexistent" "triangle"
      = .error (.missingColumn "nonexistent") :=
  ⟨(c10_missing_column_first noTsDf "nonexistent" "triangle").1 (by decide),
   (c10_missing_column_first noTsDf "nonexistent" "triangle").2 (by decide)⟩

end ChangeTimeseries
